import Mathlib

/-!
Shallow embedding of the RMMP inventory ledger
(`src/app/models/models.py` and `src/app/services/services.py`).

The persistent store is modelled as a `Store` of committed rows; each
service function becomes a pure function from a `Store` (plus its
arguments and the current time, an environment input in the source) to a
result and a new `Store`.  Row order in each table is insertion order,
matching what the SQLite backend returns for an unordered `select().all()`.
A `session.add` that is never followed by `session.commit` inside the
operation is discarded when the per-request session closes
(`with Session(engine) as session:` in `src/app/core/database.py` rolls
back pending changes), so such writes do not appear in the committed
`Store` returned by the operation.
-/

namespace RMMP

/- `ItemStatus` from `models.py`: an `IntEnum`, stored as a plain integer
in the `useable` column. -/
namespace ItemStatus

def AVAILABLE : Nat := 1
def LENT : Nat := 0
def REPAIRING : Nat := 2
def SCRAPPED : Nat := 3
def APPLYING : Nat := 4
def UNKNOWN : Nat := 5

end ItemStatus

/-- `ItemCategory` table: id, name, derived total. -/
structure ItemCategory where
  id : Nat
  name : String
  total : Nat
deriving Repr, DecidableEq

/-- `ItemList` table: id (hand-computed `1000*category + suffix`), father
(category id), name, derived total/free/broken. -/
structure ItemList where
  id : Nat
  father : Nat
  name : String
  total : Nat
  free : Nat
  broken : Nat
deriving Repr, DecidableEq

/-- `ItemInfo` table: id (hand-computed), father (list id), `useable`
status integer, `wis` (holder/location, nullable), `do` (note, nullable;
`do` is a Lean keyword so the field is named `doNote`). -/
structure ItemInfo where
  id : Nat
  father : Nat
  useable : Nat
  wis : Option String
  doNote : Option String
deriving Repr, DecidableEq

/-- `Member` table (the fields the services read). -/
structure Member where
  user_id : String
  name : String
  root : Nat
deriving Repr, DecidableEq

/-- `Log` table (the fields `set_item_state` writes; the auto-increment
primary key is the row's position). -/
structure Log where
  time : Nat
  userId : String
  operation : String
  object : Option Nat
  doNote : Option String
deriving Repr, DecidableEq

/-- The committed database state: one list of rows per table, in
insertion order. -/
structure Store where
  categories : List ItemCategory
  lists : List ItemList
  items : List ItemInfo
  members : List Member
  logs : List Log
deriving Repr, DecidableEq

/-- `session.get(ItemInfo, oid)`: primary-key lookup. -/
def getItem (s : Store) (oid : Nat) : Option ItemInfo :=
  s.items.find? (fun i => i.id == oid)

/-- `session.get(ItemList, list_id)`. -/
def getList (s : Store) (lid : Nat) : Option ItemList :=
  s.lists.find? (fun l => l.id == lid)

/-- `session.get(ItemCategory, cid)`. -/
def getCategory (s : Store) (cid : Nat) : Option ItemCategory :=
  s.categories.find? (fun c => c.id == cid)

/-- `session.get(Member, user_id)`. -/
def getMember (s : Store) (uid : String) : Option Member :=
  s.members.find? (fun m => m.user_id == uid)

/-- `select(func.count(ItemInfo.id)).where(ItemInfo.father == list_id)`. -/
def countItems (s : Store) (lid : Nat) : Nat :=
  (s.items.filter (fun i => i.father == lid)).length

/-- the same count restricted to `useable == AVAILABLE`. -/
def countFree (s : Store) (lid : Nat) : Nat :=
  (s.items.filter
    (fun i => i.father == lid && i.useable == ItemStatus.AVAILABLE)).length

/-- the same count restricted to `useable == SCRAPPED`. -/
def countBroken (s : Store) (lid : Nat) : Nat :=
  (s.items.filter
    (fun i => i.father == lid && i.useable == ItemStatus.SCRAPPED)).length

/-- `select(func.sum(ItemList.total)).where(ItemList.father == cid)`
(`None`, i.e. empty sum, collapses to 0 via `or 0`). -/
def sumListTotals (s : Store) (cid : Nat) : Nat :=
  ((s.lists.filter (fun l => l.father == cid)).map (fun l => l.total)).sum

/-- the body of `sync_item_counts` under `if item_list:`
(`category_id = item_list.father`):  write the fresh counts onto the
list row, then write the sum of the (autoflushed, hence updated) child
list totals onto the category row. -/
def sync_store (s : Store) (list_id category_id : Nat) : Store :=
  let total := countItems s list_id
  let free := countFree s list_id
  let broken := countBroken s list_id
  let lists' := s.lists.map (fun l =>
    if l.id == list_id then
      { l with total := total, free := free, broken := broken }
    else l)
  let cat_total :=
    ((lists'.filter (fun l => l.father == category_id)).map
      (fun l => l.total)).sum
  let categories' := s.categories.map (fun c =>
    if c.id == category_id then { c with total := cat_total } else c)
  { s with lists := lists', categories := categories' }

/-- `sync_item_counts(session, list_id)`: recompute the list's
total/free/broken from its item rows, then set the parent category's
total to the sum of its child lists' stored totals.  When the list row
does not exist nothing is committed. -/
def sync_item_counts (s : Store) (list_id : Nat) : Store :=
  match s.lists.find? (fun l => l.id == list_id) with
  | none => s
  | some item_list => sync_store s list_id item_list.father

/-- `add_category(session, name)`: return the existing id when a category
with this name exists, else insert a row with id `max(ids) + 1` (1 when
the table is empty, via `one() or 0`). -/
def add_category (s : Store) (name : String) : Nat × Store :=
  match s.categories.find? (fun c => c.name == name) with
  | some existing => (existing.id, s)
  | none =>
    let max_id := (s.categories.map (fun c => c.id)).foldl max 0
    let new_cat : ItemCategory := { id := max_id + 1, name := name, total := 0 }
    (new_cat.id, { s with categories := s.categories ++ [new_cat] })

/-- the suffix computation of `add_list`: last row of
`select(ItemList).where(father == category_id).all()` (insertion order),
its id mod 1000 plus 1; 1 when the category has no lists. -/
def add_list_suffix (s : Store) (category_id : Nat) : Nat :=
  match (s.lists.filter (fun l => l.father == category_id)).getLast? with
  | some last => last.id % 1000 + 1
  | none => 1

/-- `add_list(session, name, category_id)`: the existing-name check runs
over ALL lists (no father filter); otherwise the new id is
`1000 * category_id + add_list_suffix`. -/
def add_list (s : Store) (name : String) (category_id : Nat) : Nat × Store :=
  match s.lists.find? (fun l => l.name == name) with
  | some existing => (existing.id, s)
  | none =>
    let new_id := 1000 * category_id + add_list_suffix s category_id
    let new_list : ItemList :=
      { id := new_id, father := category_id, name := name,
        total := 0, free := 0, broken := 0 }
    (new_id, { s with lists := s.lists ++ [new_list] })

/-- the batch of rows `add_item` inserts: ids `name_id*1000 + base + i`,
the first `num_broken` SCRAPPED and the rest AVAILABLE. -/
def add_item_batch (name_id : Nat) (num num_broken : Nat)
    (wis doNote : String) (base_suffix : Nat) : List ItemInfo :=
  (List.range num).map (fun i =>
    { id := name_id * 1000 + base_suffix + i,
      father := name_id,
      useable := if i < num_broken then ItemStatus.SCRAPPED
                 else ItemStatus.AVAILABLE,
      wis := some wis,
      doNote := some doNote })

/-- `base_suffix` in `add_item`: items of the list ordered by id
descending, first row's id mod 1000 plus 1; 1 when the list is empty. -/
def add_item_base (s : Store) (name_id : Nat) : Nat :=
  let existing := s.items.filter (fun i => i.father == name_id)
  match existing with
  | [] => 1
  | _ => ((existing.map (fun i => i.id)).foldl max 0) % 1000 + 1

/-- `add_item(session, name_id, num, num_broken, wis, do)`: insert the
batch, commit, then run `sync_item_counts` once for the whole batch. -/
def add_item (s : Store) (name_id : Nat) (num num_broken : Nat)
    (wis doNote : String) : Store :=
  let batch := add_item_batch name_id num num_broken wis doNote
    (add_item_base s name_id)
  sync_item_counts { s with items := s.items ++ batch } name_id

/-- the per-row update of `set_item_state`: always set `useable`, set
`wis` only when a holder argument was passed (`if wis is not None`). -/
def applyState (useable : Nat) (wis : Option String) (i : ItemInfo) : ItemInfo :=
  { i with useable := useable,
           wis := match wis with
                  | some w => some w
                  | none => i.wis }

/-- the log row `set_item_state` writes. -/
def mkLog (now : Nat) (user_id operation : String) (oid : Nat)
    (doNote : Option String) : Log :=
  { time := now, userId := user_id, operation := operation,
    object := some oid, doNote := doNote }

/-- `set_item_state(session, oid, user_id, operation, useable, wis, do)`:
append a log row, load the item, and when it exists set its status (and
holder when a `wis` argument was given) and resync its list's
aggregates.  When the item does not exist nothing is committed: the
pending log row is discarded when the per-request session closes, so the
committed store is unchanged. -/
def set_item_state (s : Store) (now : Nat) (oid : Nat) (user_id : String)
    (operation : String) (useable : Nat)
    (wis : Option String) (doNote : Option String) : Store :=
  match s.items.find? (fun i => i.id == oid) with
  | none => s
  | some item =>
    let log := mkLog now user_id operation oid doNote
    let items' := s.items.map (fun i =>
      if i.id == oid then applyState useable wis i else i)
    sync_item_counts
      { s with items := items', logs := s.logs ++ [log] } item.father

/-- `apply_item(session, oid, user_id, do)`: a direct call to
`set_item_state` with operation "APPLY" and status APPLYING; no
precondition is checked and nothing is returned. -/
def apply_item (s : Store) (now : Nat) (oid : Nat) (user_id : String)
    (doNote : String) : Store :=
  set_item_state s now oid user_id "APPLY" ItemStatus.APPLYING
    none (some doNote)

/-- the not-found message of `return_item`. -/
def msg_item_not_found (oid : Nat) : String :=
  "Error: 无法找到物品 " ++ toString oid

/-- the unknown-member message of `return_item`. -/
def msg_member_not_found (uid : String) : String :=
  "Error: 用户 " ++ uid ++ " 不存在"

/-- the already-scrapped message of `return_item`. -/
def msg_scrapped : String := "Error: 它已经报废了"

/-- the under-application message of `return_item`. -/
def msg_applying : String := "Error: 该物品正在申请中"

/-- the permission-denied message of `return_item`. -/
def msg_no_permission : String := "Error: 你不是该物品的持有者"

/-- the success message of `return_item` (the f-string, as concatenation). -/
def return_msg (is_helper : Bool) (item_name : String) (oid : Nat) : String :=
  "你" ++ (if is_helper then "帮忙" else "") ++ "归还了物品 " ++
    item_name ++ " oid:" ++ toString oid

/-- `return_item(session, oid, user_id)`: validate existence of item and
member, reject SCRAPPED / APPLYING items, check that the caller is the
recorded holder (name match against `wis`) or an admin (`root == 1`),
then delegate to `set_item_state` with status AVAILABLE and holder
`"仓库"` and build the confirmation message. -/
def return_item (s : Store) (now : Nat) (oid : Nat) (user_id : String) :
    String × Store :=
  match s.items.find? (fun i => i.id == oid) with
  | none => (msg_item_not_found oid, s)
  | some item =>
    match s.members.find? (fun m => m.user_id == user_id) with
    | none => (msg_member_not_found user_id, s)
    | some member =>
      if item.useable = ItemStatus.SCRAPPED then
        (msg_scrapped, s)
      else if item.useable = ItemStatus.APPLYING then
        (msg_applying, s)
      else if item.wis ≠ some member.name ∧ member.root ≠ 1 then
        (msg_no_permission, s)
      else
        let s' := set_item_state s now oid user_id "RETURN"
          ItemStatus.AVAILABLE (some "仓库") (some "null")
        let is_helper := member.root == 1
        let item_name :=
          match s.lists.find? (fun l => l.id == item.father) with
          | some l => l.name
          | none => ""
        (return_msg is_helper item_name oid, s')

/-! ## Spec predicates -/

/-- The aggregate invariant at list `lid` (spec §3): the stored
total/free/broken of the list row (when it exists) match fresh counts
over the item rows, and the stored total of its parent category (when it
exists) matches the sum of the stored totals of that category's child
lists. -/
def listSyncedAt (s : Store) (lid : Nat) : Prop :=
  ∀ l, getList s lid = some l →
    (l.total = countItems s lid ∧ l.free = countFree s lid ∧
      l.broken = countBroken s lid) ∧
    ∀ c, getCategory s l.father = some c →
      c.total = sumListTotals s l.father

/-! ## Helper lemmas -/

/-- `find?` after a conditional in-place update hits the updated version
of the row it used to hit, provided the update cannot change whether a
row matches. -/
theorem find?_map_ite {α : Type} (p : α → Bool) (f : α → α)
    (hf : ∀ a, p (f a) = p a) (ls : List α) :
    (ls.map (fun a => if p a then f a else a)).find? p
      = (ls.find? p).map f := by
  induction ls with
  | nil => rfl
  | cons a t ih =>
    by_cases h : p a = true
    · simp only [List.map_cons, if_pos h]
      rw [List.find?_cons_of_pos _ (by rw [hf]; exact h),
        List.find?_cons_of_pos _ h]
      rfl
    · simp only [List.map_cons, if_neg h]
      rw [List.find?_cons_of_neg _ h, List.find?_cons_of_neg _ h, ih]

/-- `sync_item_counts` does not touch the item rows. -/
theorem sync_items_eq (s : Store) (lid : Nat) :
    (sync_item_counts s lid).items = s.items := by
  unfold sync_item_counts
  cases s.lists.find? (fun l => l.id == lid) <;> rfl

/-- `sync_item_counts` does not touch the log rows. -/
theorem sync_logs_eq (s : Store) (lid : Nat) :
    (sync_item_counts s lid).logs = s.logs := by
  unfold sync_item_counts
  cases s.lists.find? (fun l => l.id == lid) <;> rfl

/-- `sync_item_counts` does not touch the member rows. -/
theorem sync_members_eq (s : Store) (lid : Nat) :
    (sync_item_counts s lid).members = s.members := by
  unfold sync_item_counts
  cases s.lists.find? (fun l => l.id == lid) <;> rfl

/-- `find?` on the list rows after `sync_store` writes its counts. -/
theorem find?_update_list (ls : List ItemList) (lid T F B : Nat) :
    (ls.map (fun l => if l.id == lid then
        { l with total := T, free := F, broken := B } else l)).find?
        (fun l => l.id == lid)
      = (ls.find? (fun l => l.id == lid)).map
          (fun l => { l with total := T, free := F, broken := B }) :=
  find?_map_ite (fun l => l.id == lid)
    (fun l => { l with total := T, free := F, broken := B })
    (fun _ => rfl) ls

/-- `find?` on the category rows after `sync_store` writes its total. -/
theorem find?_update_cat (cs : List ItemCategory) (cid T : Nat) :
    (cs.map (fun c => if c.id == cid then { c with total := T } else c)).find?
        (fun c => c.id == cid)
      = (cs.find? (fun c => c.id == cid)).map
          (fun c => { c with total := T }) :=
  find?_map_ite (fun c => c.id == cid)
    (fun c => { c with total := T })
    (fun _ => rfl) cs

/-- the two evaluation equations of `sync_item_counts`. -/
theorem sync_eq_of_none (s : Store) (lid : Nat)
    (h : s.lists.find? (fun l => l.id == lid) = none) :
    sync_item_counts s lid = s := by
  unfold sync_item_counts; rw [h]

theorem sync_eq_of_some (s : Store) (lid : Nat) (L0 : ItemList)
    (h : s.lists.find? (fun l => l.id == lid) = some L0) :
    sync_item_counts s lid = sync_store s lid L0.father := by
  unfold sync_item_counts; rw [h]

/-- `sync_store`, called (as `sync_item_counts` does) with the found
list row's father, establishes the aggregate invariant at `lid`. -/
theorem sync_store_synced (s : Store) (lid : Nat) (L0 : ItemList)
    (h : s.lists.find? (fun l => l.id == lid) = some L0) :
    listSyncedAt (sync_store s lid L0.father) lid := by
  intro l hl
  have hfl : getList (sync_store s lid L0.father) lid
      = some { L0 with total := countItems s lid, free := countFree s lid,
                       broken := countBroken s lid } := by
    show (s.lists.map _).find? _ = _
    rw [find?_update_list, h]
    rfl
  have hl2 : l = { L0 with total := countItems s lid,
                           free := countFree s lid,
                           broken := countBroken s lid } := by
    rw [hfl] at hl
    exact (Option.some_inj.mp hl).symm
  subst hl2
  refine ⟨⟨rfl, rfl, rfl⟩, ?_⟩
  intro c hc
  have hc' : getCategory (sync_store s lid L0.father) L0.father = some c := hc
  have hgc : getCategory (sync_store s lid L0.father) L0.father
      = (s.categories.find? (fun c0 => c0.id == L0.father)).map
          (fun c0 => { c0 with total := sumListTotals (sync_store s lid L0.father) L0.father }) :=
    find?_update_cat s.categories L0.father _
  rw [hgc] at hc'
  cases hfc : s.categories.find? (fun c0 => c0.id == L0.father) with
  | none => rw [hfc] at hc'; cases hc'
  | some c0 =>
    rw [hfc] at hc'
    have hceq : c = { c0 with total := sumListTotals (sync_store s lid L0.father) L0.father } :=
      (Option.some_inj.mp hc').symm
    subst hceq
    rfl

/-- After `sync_item_counts s lid`, the aggregate invariant holds at
`lid`. -/
theorem sync_listSyncedAt (s : Store) (lid : Nat) :
    listSyncedAt (sync_item_counts s lid) lid := by
  cases hfind : s.lists.find? (fun l => l.id == lid) with
  | none =>
    rw [sync_eq_of_none s lid hfind]
    intro l hl
    rw [show getList s lid = s.lists.find? (fun l => l.id == lid) from rfl,
      hfind] at hl
    cases hl
  | some L0 =>
    rw [sync_eq_of_some s lid L0 hfind]
    exact sync_store_synced s lid L0 hfind

/-- `find?` on the item rows after `set_item_state` writes its update. -/
theorem find?_update_item (ls : List ItemInfo) (oid useable : Nat)
    (w : Option String) :
    (ls.map (fun i => if i.id == oid then applyState useable w i else i)).find?
        (fun i => i.id == oid)
      = (ls.find? (fun i => i.id == oid)).map (applyState useable w) :=
  find?_map_ite (fun i => i.id == oid) (applyState useable w)
    (fun _ => rfl) ls

/-- the two evaluation equations of `set_item_state`. -/
theorem set_item_state_of_none (s : Store) (now oid : Nat)
    (user_id operation : String) (useable : Nat) (wis doNote : Option String)
    (h : getItem s oid = none) :
    set_item_state s now oid user_id operation useable wis doNote = s := by
  unfold set_item_state
  rw [show s.items.find? (fun i => i.id == oid) = none from h]

theorem set_item_state_of_some (s : Store) (now oid : Nat)
    (user_id operation : String) (useable : Nat) (wis doNote : Option String)
    (item : ItemInfo) (h : getItem s oid = some item) :
    set_item_state s now oid user_id operation useable wis doNote =
      sync_item_counts
        { s with
          items := s.items.map (fun i =>
            if i.id == oid then applyState useable wis i else i),
          logs := s.logs ++ [mkLog now user_id operation oid doNote] }
        item.father := by
  unfold set_item_state
  rw [show s.items.find? (fun i => i.id == oid) = some item from h]

/-- `set_item_state` on an existing item leaves the item rows' ids in
place and rewrites the target row by `applyState`. -/
theorem getItem_set_item_state (s : Store) (now oid : Nat)
    (user_id operation : String) (useable : Nat) (wis doNote : Option String)
    (item : ItemInfo) (h : getItem s oid = some item) :
    getItem (set_item_state s now oid user_id operation useable wis doNote) oid
      = some (applyState useable wis item) := by
  rw [set_item_state_of_some s now oid user_id operation useable wis doNote item h]
  show (sync_item_counts _ _).items.find? _ = _
  rw [sync_items_eq]
  show (s.items.map _).find? _ = _
  rw [find?_update_item,
    show s.items.find? (fun i => i.id == oid) = some item from h]
  rfl

/-- `set_item_state` on an existing item appends exactly the "operation"
log row. -/
theorem logs_set_item_state (s : Store) (now oid : Nat)
    (user_id operation : String) (useable : Nat) (wis doNote : Option String)
    (item : ItemInfo) (h : getItem s oid = some item) :
    (set_item_state s now oid user_id operation useable wis doNote).logs
      = s.logs ++ [mkLog now user_id operation oid doNote] := by
  rw [set_item_state_of_some s now oid user_id operation useable wis doNote item h]
  rw [sync_logs_eq]

/-- `set_item_state` on an existing item re-establishes the aggregate
invariant at the item's list. -/
theorem set_item_state_synced (s : Store) (now oid : Nat)
    (user_id operation : String) (useable : Nat) (wis doNote : Option String)
    (item : ItemInfo) (h : getItem s oid = some item) :
    listSyncedAt (set_item_state s now oid user_id operation useable wis doNote)
      item.father := by
  rw [set_item_state_of_some s now oid user_id operation useable wis doNote item h]
  exact sync_listSyncedAt _ _

/-- `set_item_state` never touches the member rows. -/
theorem members_set_item_state (s : Store) (now oid : Nat)
    (user_id operation : String) (useable : Nat) (wis doNote : Option String) :
    (set_item_state s now oid user_id operation useable wis doNote).members
      = s.members := by
  unfold set_item_state
  cases s.items.find? (fun i => i.id == oid) with
  | none => rfl
  | some item => rw [sync_members_eq]

/-! ## Claim C7: name idempotency of add_category / add_list -/

/-- C7: `addCategory` on a name that already names a category returns the
existing category's id and creates no row, and `addList` on a name that
already names a list returns the existing list's id and creates no row:
a second call with the same name is idempotent. -/
theorem add_name_idempotent :
    (∀ (s : Store) (name : String), (∃ c ∈ s.categories, c.name = name) →
      ∃ c, c ∈ s.categories ∧ c.name = name ∧
        add_category s name = (c.id, s)) ∧
    (∀ (s : Store) (name : String) (cid : Nat),
      (∃ l ∈ s.lists, l.name = name) →
      ∃ l, l ∈ s.lists ∧ l.name = name ∧
        add_list s name cid = (l.id, s)) := by
  constructor
  · intro s name h
    obtain ⟨c, hcmem, hcname⟩ := h
    cases hfind : s.categories.find? (fun c0 => c0.name == name) with
    | none =>
      exfalso
      have hnone := List.find?_eq_none.mp hfind c hcmem
      simp [hcname] at hnone
    | some c' =>
      refine ⟨c', List.mem_of_find?_eq_some hfind, ?_, ?_⟩
      · have := List.find?_some hfind
        simpa using this
      · unfold add_category
        rw [hfind]
  · intro s name cid h
    obtain ⟨l, hlmem, hlname⟩ := h
    cases hfind : s.lists.find? (fun l0 => l0.name == name) with
    | none =>
      exfalso
      have hnone := List.find?_eq_none.mp hfind l hlmem
      simp [hlname] at hnone
    | some l' =>
      refine ⟨l', List.mem_of_find?_eq_some hfind, ?_, ?_⟩
      · have := List.find?_some hfind
        simpa using this
      · unfold add_list
        rw [hfind]

def stC7 : Store :=
  { categories := [{ id := 1, name := "工具", total := 0 }],
    lists := [{ id := 1001, father := 1, name := "扳手",
                total := 0, free := 0, broken := 0 }],
    items := [], members := [], logs := [] }

/-- witness for C7: idempotent re-adds on a concrete store. -/
theorem add_name_idempotent_witness :
    (∃ c, c ∈ stC7.categories ∧ c.name = "工具" ∧
      add_category stC7 "工具" = (c.id, stC7)) ∧
    (∃ l, l ∈ stC7.lists ∧ l.name = "扳手" ∧
      add_list stC7 "扳手" 9 = (l.id, stC7)) :=
  ⟨add_name_idempotent.1 stC7 "工具" (by decide),
   add_name_idempotent.2 stC7 "扳手" 9 (by decide)⟩

/-! ## Claim C9: the add_list name check ignores the parent category -/

/-- C9: when some list named `name` already exists (under whatever
category), `addList(name, cid)` for every requested category returns the
existing list's id and creates no row at all — in particular none under
the requested category. -/
theorem addList_name_check_cross_category (s : Store) (name : String)
    (cid : Nat) (l : ItemList) (hmem : l ∈ s.lists) (hname : l.name = name) :
    (add_list s name cid).2 = s ∧
    ∃ l', l' ∈ s.lists ∧ l'.name = name ∧ (add_list s name cid).1 = l'.id := by
  cases hfind : s.lists.find? (fun l0 => l0.name == name) with
  | none =>
    exfalso
    have hnone := List.find?_eq_none.mp hfind l hmem
    simp [hname] at hnone
  | some l' =>
    have heq : add_list s name cid = (l'.id, s) := by
      unfold add_list
      rw [hfind]
    refine ⟨by rw [heq], l', List.mem_of_find?_eq_some hfind, ?_, by rw [heq]⟩
    have := List.find?_some hfind
    simpa using this

def stC9 : Store :=
  { categories := [{ id := 1, name := "电控", total := 0 },
                   { id := 2, name := "机械", total := 0 }],
    lists := [{ id := 1001, father := 1, name := "电机",
                total := 0, free := 0, broken := 0 }],
    items := [], members := [], logs := [] }

/-- witness for C9: list "电机" lives under category 1, yet
`addList("电机", 2)` returns its id and adds nothing. -/
theorem addList_name_check_cross_category_witness :
    (add_list stC9 "电机" 2).2 = stC9 ∧
    ∃ l', l' ∈ stC9.lists ∧ l'.name = "电机" ∧
      (add_list stC9 "电机" 2).1 = l'.id :=
  addList_name_check_cross_category stC9 "电机" 2
    { id := 1001, father := 1, name := "电机",
      total := 0, free := 0, broken := 0 }
    (by decide) rfl

/-! ## Claim C8: the frame of set_item_state -/

/-- C8: `setItemState` on a missing item silently no-ops (no item status
or holder changes, no aggregate recomputation: the committed store is
exactly the input store); on an existing item it sets the new status,
sets the holder exactly when a holder argument is provided, and
recomputes the aggregates of the item's list. -/
theorem setItemState_frame :
    (∀ (s : Store) (now oid : Nat) (uid op : String) (st : Nat)
        (w d : Option String),
      getItem s oid = none →
      set_item_state s now oid uid op st w d = s) ∧
    (∀ (s : Store) (now oid : Nat) (uid op : String) (st : Nat)
        (w d : Option String) (item : ItemInfo),
      getItem s oid = some item →
      getItem (set_item_state s now oid uid op st w d) oid
        = some (applyState st w item) ∧
      (applyState st w item).useable = st ∧
      (∀ x, w = some x → (applyState st w item).wis = some x) ∧
      (w = none → (applyState st w item).wis = item.wis) ∧
      listSyncedAt (set_item_state s now oid uid op st w d) item.father) := by
  constructor
  · intro s now oid uid op st w d h
    exact set_item_state_of_none s now oid uid op st w d h
  · intro s now oid uid op st w d item h
    refine ⟨getItem_set_item_state s now oid uid op st w d item h, rfl,
      ?_, ?_, set_item_state_synced s now oid uid op st w d item h⟩
    · intro x hx
      subst hx
      rfl
    · intro hw
      subst hw
      rfl

def stC8 : Store :=
  { categories := [{ id := 1, name := "电控", total := 1 }],
    lists := [{ id := 1001, father := 1, name := "电机",
                total := 1, free := 1, broken := 0 }],
    items := [{ id := 1001001, father := 1001,
                useable := ItemStatus.AVAILABLE,
                wis := some "仓库", doNote := some "无" }],
    members := [], logs := [] }

/-- witness for C8: a no-op on a missing id and a real update on an
existing item of a concrete store. -/
theorem setItemState_frame_witness :
    set_item_state stC8 7 555 "u" "FIX" ItemStatus.REPAIRING none none
      = stC8 ∧
    (getItem
        (set_item_state stC8 7 1001001 "u" "LEND" ItemStatus.LENT
          (some "Alice") none) 1001001
      = some (applyState ItemStatus.LENT (some "Alice")
          { id := 1001001, father := 1001,
            useable := ItemStatus.AVAILABLE,
            wis := some "仓库", doNote := some "无" }) ∧
      (applyState ItemStatus.LENT (some "Alice")
          { id := 1001001, father := 1001,
            useable := ItemStatus.AVAILABLE,
            wis := some "仓库", doNote := some "无" }).useable
        = ItemStatus.LENT ∧
      (∀ x, (some "Alice" : Option String) = some x →
        (applyState ItemStatus.LENT (some "Alice")
          { id := 1001001, father := 1001,
            useable := ItemStatus.AVAILABLE,
            wis := some "仓库", doNote := some "无" }).wis = some x) ∧
      ((some "Alice" : Option String) = none →
        (applyState ItemStatus.LENT (some "Alice")
          { id := 1001001, father := 1001,
            useable := ItemStatus.AVAILABLE,
            wis := some "仓库", doNote := some "无" }).wis
          = (some "仓库" : Option String)) ∧
      listSyncedAt
        (set_item_state stC8 7 1001001 "u" "LEND" ItemStatus.LENT
          (some "Alice") none) 1001) :=
  ⟨setItemState_frame.1 stC8 7 555 "u" "FIX" ItemStatus.REPAIRING
      none none rfl,
   setItemState_frame.2 stC8 7 1001001 "u" "LEND" ItemStatus.LENT
      (some "Alice") none _ rfl⟩

/-! ## Claim C2: aggregate invariants after every ledger operation -/

/-- C2: after every completed ledger operation that touches a list L or
its items — addItems, applyItem, setItemState on an existing item, and
returnItem (which either changes nothing or runs the sync) — L's stored
total/free/broken equal fresh counts of L's item rows by status, and the
stored total of L's parent category equals the sum of the stored totals
of that category's child lists. -/
theorem ledger_aggregates_synced :
    (∀ (s : Store) (lid num nb : Nat) (w d : String),
      listSyncedAt (add_item s lid num nb w d) lid) ∧
    (∀ (s : Store) (now oid : Nat) (uid dn : String) (item : ItemInfo),
      getItem s oid = some item →
      listSyncedAt (apply_item s now oid uid dn) item.father) ∧
    (∀ (s : Store) (now oid : Nat) (uid op : String) (st : Nat)
        (w d : Option String) (item : ItemInfo),
      getItem s oid = some item →
      listSyncedAt (set_item_state s now oid uid op st w d) item.father) ∧
    (∀ (s : Store) (now oid : Nat) (uid : String) (item : ItemInfo),
      getItem s oid = some item →
      (return_item s now oid uid).2 = s ∨
      listSyncedAt (return_item s now oid uid).2 item.father) := by
  refine ⟨?_, ?_, ?_, ?_⟩
  · intro s lid num nb w d
    exact sync_listSyncedAt _ lid
  · intro s now oid uid dn item h
    exact set_item_state_synced s now oid uid "APPLY" ItemStatus.APPLYING
      none (some dn) item h
  · intro s now oid uid op st w d item h
    exact set_item_state_synced s now oid uid op st w d item h
  · intro s now oid uid item h
    cases hmem : s.members.find? (fun m => m.user_id == uid) with
    | none =>
      left
      unfold return_item
      rw [show s.items.find? (fun i => i.id == oid) = some item from h, hmem]
    | some member =>
      by_cases h1 : item.useable = ItemStatus.SCRAPPED
      · left
        unfold return_item
        rw [show s.items.find? (fun i => i.id == oid) = some item from h,
          hmem]
        dsimp only
        rw [if_pos h1]
      · by_cases h2 : item.useable = ItemStatus.APPLYING
        · left
          unfold return_item
          rw [show s.items.find? (fun i => i.id == oid) = some item from h,
            hmem]
          dsimp only
          rw [if_neg h1, if_pos h2]
        · by_cases h3 : item.wis ≠ some member.name ∧ member.root ≠ 1
          · left
            unfold return_item
            rw [show s.items.find? (fun i => i.id == oid) = some item from h,
              hmem]
            dsimp only
            rw [if_neg h1, if_neg h2, if_pos h3]
          · right
            unfold return_item
            rw [show s.items.find? (fun i => i.id == oid) = some item from h,
              hmem]
            dsimp only
            rw [if_neg h1, if_neg h2, if_neg h3]
            exact set_item_state_synced s now oid uid "RETURN"
              ItemStatus.AVAILABLE (some "仓库") (some "null") item h

def stC2 : Store :=
  { categories := [{ id := 1, name := "电控", total := 1 }],
    lists := [{ id := 1001, father := 1, name := "电机",
                total := 1, free := 1, broken := 0 }],
    items := [{ id := 1001001, father := 1001,
                useable := ItemStatus.AVAILABLE,
                wis := some "仓库", doNote := some "无" }],
    members := [], logs := [] }

/-- witness for C2: the invariant holds after concrete addItems and
setItemState calls. -/
theorem ledger_aggregates_synced_witness :
    listSyncedAt (add_item stC2 1001 2 1 "仓库" "无") 1001 ∧
    listSyncedAt
      (set_item_state stC2 3 1001001 "u" "APPLY" ItemStatus.APPLYING
        none none) 1001 :=
  ⟨ledger_aggregates_synced.1 stC2 1001 2 1 "仓库" "无",
   ledger_aggregates_synced.2.2.1 stC2 3 1001001 "u" "APPLY"
     ItemStatus.APPLYING none none
     { id := 1001001, father := 1001, useable := ItemStatus.AVAILABLE,
       wis := some "仓库", doNote := some "无" } rfl⟩

/-! ## Claim C5: addItems batch creation -/

def stC5 : Store :=
  { categories := [{ id := 3, name := "电子", total := 0 }],
    lists := [{ id := 3001, father := 3, name := "Motor",
                total := 0, free := 0, broken := 0 }],
    items := [], members := [], logs := [] }

/-- C5: on a store where list 3001 exists with no items,
`addItems(3001, count=3, brokenCount=1, holder="warehouse")` creates
exactly items 3001001 (SCRAPPED), 3001002 and 3001003 (AVAILABLE) and
leaves list 3001 with total=3, free=2, broken=1; in general the batch is
inserted in one go followed by a single aggregate sync, and the i-th item
of a batch is SCRAPPED exactly when `i < brokenCount`. -/
theorem addItems_batch :
    ((add_item stC5 3001 3 1 "warehouse" "无").items
      = [{ id := 3001001, father := 3001, useable := ItemStatus.SCRAPPED,
           wis := some "warehouse", doNote := some "无" },
         { id := 3001002, father := 3001, useable := ItemStatus.AVAILABLE,
           wis := some "warehouse", doNote := some "无" },
         { id := 3001003, father := 3001, useable := ItemStatus.AVAILABLE,
           wis := some "warehouse", doNote := some "无" }] ∧
     getList (add_item stC5 3001 3 1 "warehouse" "无") 3001
      = some { id := 3001, father := 3, name := "Motor",
               total := 3, free := 2, broken := 1 }) ∧
    (∀ (s : Store) (lid num nb : Nat) (w d : String),
      add_item s lid num nb w d
        = sync_item_counts
            { s with items := s.items ++ add_item_batch lid num nb w d (add_item_base s lid) } lid ∧
      ∀ i, i < num →
        ((add_item_batch lid num nb w d (add_item_base s lid))[i]?).map
            (fun it => (it.father, it.useable))
          = some (lid, if i < nb then ItemStatus.SCRAPPED
                       else ItemStatus.AVAILABLE)) := by
  refine ⟨⟨by decide, by decide⟩, ?_⟩
  intro s lid num nb w d
  refine ⟨rfl, ?_⟩
  intro i hi
  unfold add_item_batch
  rw [List.getElem?_map, List.getElem?_range hi]
  rfl

/-- witness for C5: the general batch shape at a concrete input. -/
theorem addItems_batch_witness :
    add_item stC5 3001 3 1 "warehouse" "无"
      = sync_item_counts
          { stC5 with items := stC5.items ++ add_item_batch 3001 3 1 "warehouse" "无" (add_item_base stC5 3001) } 3001 ∧
    ((add_item_batch 3001 3 1 "warehouse" "无"
        (add_item_base stC5 3001))[0]?).map
        (fun it => (it.father, it.useable))
      = some (3001, if 0 < 1 then ItemStatus.SCRAPPED
                    else ItemStatus.AVAILABLE) :=
  ⟨(addItems_batch.2 stC5 3001 3 1 "warehouse" "无").1,
   (addItems_batch.2 stC5 3001 3 1 "warehouse" "无").2 0 (by decide)⟩

/-! ## Claim C6: addList id allocation -/

def stC6 : Store :=
  { categories := [{ id := 3, name := "电子", total := 0 }],
    lists := [], items := [], members := [], logs := [] }

/-- C6: on a store where category 3 exists with no lists and no list is
named "Motor" or "Battery", `addList("Motor", 3)` returns 3001 and a
subsequent `addList("Battery", 3)` returns 3002; in general, when the
name is new, the allocated id is `1000 * categoryId + 1` if the category
has no lists, and `1000 * categoryId + (last sibling's id mod 1000) + 1`
otherwise (siblings in insertion order). -/
theorem addList_id_allocation :
    ((add_list stC6 "Motor" 3).1 = 3001 ∧
     (add_list (add_list stC6 "Motor" 3).2 "Battery" 3).1 = 3002) ∧
    (∀ (s : Store) (name : String) (cid : Nat),
      s.lists.find? (fun l0 => l0.name == name) = none →
      ((s.lists.filter (fun l0 => l0.father == cid) = [] →
          (add_list s name cid).1 = 1000 * cid + 1) ∧
       (∀ last,
          (s.lists.filter (fun l0 => l0.father == cid)).getLast? = some last →
          (add_list s name cid).1 = 1000 * cid + (last.id % 1000 + 1)))) := by
  refine ⟨⟨by decide, by decide⟩, ?_⟩
  intro s name cid hnone
  constructor
  · intro hempty
    unfold add_list
    rw [hnone]
    show 1000 * cid + add_list_suffix s cid = 1000 * cid + 1
    unfold add_list_suffix
    rw [hempty]
    rfl
  · intro last hlast
    unfold add_list
    rw [hnone]
    show 1000 * cid + add_list_suffix s cid = 1000 * cid + (last.id % 1000 + 1)
    unfold add_list_suffix
    rw [hlast]

/-- witness for C6: both branches of the allocation rule at concrete
stores. -/
theorem addList_id_allocation_witness :
    (add_list stC6 "Motor" 3).1 = 1000 * 3 + 1 ∧
    (add_list (add_list stC6 "Motor" 3).2 "Battery" 3).1
      = 1000 * 3 + (3001 % 1000 + 1) :=
  ⟨((addList_id_allocation.2 stC6 "Motor" 3 rfl).1 rfl),
   ((addList_id_allocation.2 (add_list stC6 "Motor" 3).2 "Battery" 3 rfl).2
     { id := 3001, father := 3, name := "Motor",
       total := 0, free := 0, broken := 0 } rfl)⟩

/-! ## Evaluation lemmas for return_item -/

theorem return_item_eq_not_found (s : Store) (now oid : Nat) (uid : String)
    (h : getItem s oid = none) :
    return_item s now oid uid = (msg_item_not_found oid, s) := by
  unfold return_item
  rw [show s.items.find? (fun i => i.id == oid) = none from h]

theorem return_item_eq_no_member (s : Store) (now oid : Nat) (uid : String)
    (item : ItemInfo) (hi : getItem s oid = some item)
    (hm : getMember s uid = none) :
    return_item s now oid uid = (msg_member_not_found uid, s) := by
  unfold return_item
  rw [show s.items.find? (fun i => i.id == oid) = some item from hi,
    show s.members.find? (fun m => m.user_id == uid) = none from hm]

theorem return_item_eq_scrapped (s : Store) (now oid : Nat) (uid : String)
    (item : ItemInfo) (member : Member)
    (hi : getItem s oid = some item) (hm : getMember s uid = some member)
    (hs : item.useable = ItemStatus.SCRAPPED) :
    return_item s now oid uid = (msg_scrapped, s) := by
  unfold return_item
  rw [show s.items.find? (fun i => i.id == oid) = some item from hi,
    show s.members.find? (fun m => m.user_id == uid) = some member from hm]
  dsimp only
  rw [if_pos hs]

theorem return_item_eq_applying (s : Store) (now oid : Nat) (uid : String)
    (item : ItemInfo) (member : Member)
    (hi : getItem s oid = some item) (hm : getMember s uid = some member)
    (h1 : item.useable ≠ ItemStatus.SCRAPPED)
    (h2 : item.useable = ItemStatus.APPLYING) :
    return_item s now oid uid = (msg_applying, s) := by
  unfold return_item
  rw [show s.items.find? (fun i => i.id == oid) = some item from hi,
    show s.members.find? (fun m => m.user_id == uid) = some member from hm]
  dsimp only
  rw [if_neg h1, if_pos h2]

theorem return_item_eq_no_permission (s : Store) (now oid : Nat)
    (uid : String) (item : ItemInfo) (member : Member)
    (hi : getItem s oid = some item) (hm : getMember s uid = some member)
    (h1 : item.useable ≠ ItemStatus.SCRAPPED)
    (h2 : item.useable ≠ ItemStatus.APPLYING)
    (hw : item.wis ≠ some member.name) (hr : member.root ≠ 1) :
    return_item s now oid uid = (msg_no_permission, s) := by
  unfold return_item
  rw [show s.items.find? (fun i => i.id == oid) = some item from hi,
    show s.members.find? (fun m => m.user_id == uid) = some member from hm]
  dsimp only
  rw [if_neg h1, if_neg h2, if_pos ⟨hw, hr⟩]

theorem return_item_eq_success (s : Store) (now oid : Nat) (uid : String)
    (item : ItemInfo) (member : Member)
    (hi : getItem s oid = some item) (hm : getMember s uid = some member)
    (h1 : item.useable ≠ ItemStatus.SCRAPPED)
    (h2 : item.useable ≠ ItemStatus.APPLYING)
    (h3 : item.wis = some member.name ∨ member.root = 1) :
    return_item s now oid uid =
      (return_msg (member.root == 1)
        (match getList s item.father with
         | some l => l.name
         | none => "") oid,
       set_item_state s now oid uid "RETURN" ItemStatus.AVAILABLE
         (some "仓库") (some "null")) := by
  unfold return_item
  rw [show s.items.find? (fun i => i.id == oid) = some item from hi,
    show s.members.find? (fun m => m.user_id == uid) = some member from hm]
  dsimp only
  rw [if_neg h1, if_neg h2, if_neg (by
    intro hc
    cases h3 with
    | inl h3 => exact hc.1 h3
    | inr h3 => exact hc.2 h3)]
  rfl

/-! ## Distinctness of the reported outcomes -/

/-- two strings differing in their 8th character differ. -/
theorem ne_of_data7 {a b : String} (ca cb : Char)
    (ha : a.data[7]? = some ca) (hb : b.data[7]? = some cb)
    (hne : ca ≠ cb) : a ≠ b := by
  intro h
  rw [h, hb] at ha
  exact hne (Option.some_inj.mp ha).symm

theorem msg_item_not_found_data7 (oid : Nat) :
    (msg_item_not_found oid).data[7]? = some '无' := by
  unfold msg_item_not_found
  rw [String.data_append, List.getElem?_append_left (by decide)]
  decide

theorem msg_member_not_found_data7 (uid : String) :
    (msg_member_not_found uid).data[7]? = some '用' := by
  unfold msg_member_not_found
  rw [String.data_append]
  rw [List.getElem?_append_left (by
    rw [String.data_append, List.length_append]
    have h10 : (("Error: 用户 " : String).data).length = 10 := rfl
    omega)]
  rw [String.data_append, List.getElem?_append_left (by decide)]
  decide

theorem msg_scrapped_data7 : msg_scrapped.data[7]? = some '它' := by decide

theorem msg_applying_data7 : msg_applying.data[7]? = some '该' := by decide

theorem msg_no_permission_data7 :
    msg_no_permission.data[7]? = some '你' := by decide

/-- the admin "helped return" confirmation differs from the self-return
confirmation at every item name and id. -/
theorem return_msg_helper_ne (n : String) (o : Nat) :
    return_msg true n o ≠ return_msg false n o := by
  intro heq
  have hl := congrArg String.length heq
  simp [return_msg, String.length_append] at hl
  have h1 : ("你帮忙归还了物品 " : String).length = 9 := rfl
  have h2 : ("你归还了物品 " : String).length = 7 := rfl
  omega

/-- the five failure messages of return_item are pairwise distinct, for
every item id and user id mentioned in them. -/
theorem return_failure_msgs_distinct (o : Nat) (u : String) :
    msg_item_not_found o ≠ msg_member_not_found u ∧
    msg_item_not_found o ≠ msg_scrapped ∧
    msg_item_not_found o ≠ msg_applying ∧
    msg_item_not_found o ≠ msg_no_permission ∧
    msg_member_not_found u ≠ msg_scrapped ∧
    msg_member_not_found u ≠ msg_applying ∧
    msg_member_not_found u ≠ msg_no_permission ∧
    msg_scrapped ≠ msg_applying ∧
    msg_scrapped ≠ msg_no_permission ∧
    msg_applying ≠ msg_no_permission :=
  ⟨ne_of_data7 '无' '用' (msg_item_not_found_data7 o)
      (msg_member_not_found_data7 u) (by decide),
   ne_of_data7 '无' '它' (msg_item_not_found_data7 o)
      msg_scrapped_data7 (by decide),
   ne_of_data7 '无' '该' (msg_item_not_found_data7 o)
      msg_applying_data7 (by decide),
   ne_of_data7 '无' '你' (msg_item_not_found_data7 o)
      msg_no_permission_data7 (by decide),
   ne_of_data7 '用' '它' (msg_member_not_found_data7 u)
      msg_scrapped_data7 (by decide),
   ne_of_data7 '用' '该' (msg_member_not_found_data7 u)
      msg_applying_data7 (by decide),
   ne_of_data7 '用' '你' (msg_member_not_found_data7 u)
      msg_no_permission_data7 (by decide),
   by decide, by decide, by decide⟩

/-! ## Claim C3: returnItem by a non-holder non-admin member -/

/-- C3: for every existing item not SCRAPPED or APPLYING and every
existing member who is neither the recorded holder (by name match) nor an
admin, `returnItem` fails with the permission-denied message, appends no
log entry, and leaves the item's status (indeed the whole store)
unchanged. -/
theorem returnItem_permission_denied (s : Store) (now oid : Nat)
    (uid : String) (item : ItemInfo) (member : Member)
    (hi : getItem s oid = some item) (hm : getMember s uid = some member)
    (h1 : item.useable ≠ ItemStatus.SCRAPPED)
    (h2 : item.useable ≠ ItemStatus.APPLYING)
    (hw : item.wis ≠ some member.name) (hr : member.root ≠ 1) :
    return_item s now oid uid = (msg_no_permission, s) ∧
    (return_item s now oid uid).2.logs = s.logs ∧
    getItem (return_item s now oid uid).2 oid = some item := by
  have he := return_item_eq_no_permission s now oid uid item member
    hi hm h1 h2 hw hr
  exact ⟨he, by rw [he], by rw [he]; exact hi⟩

def stC3 : Store :=
  { categories := [{ id := 1, name := "电控", total := 1 }],
    lists := [{ id := 1001, father := 1, name := "电机",
                total := 1, free := 0, broken := 0 }],
    items := [{ id := 1001001, father := 1001,
                useable := ItemStatus.LENT,
                wis := some "Bob", doNote := some "无" }],
    members := [{ user_id := "u1", name := "Alice", root := 0 }],
    logs := [] }

/-- witness for C3: Alice (non-admin) tries to return Bob's item. -/
theorem returnItem_permission_denied_witness :
    return_item stC3 4 1001001 "u1" = (msg_no_permission, stC3) ∧
    (return_item stC3 4 1001001 "u1").2.logs = stC3.logs ∧
    getItem (return_item stC3 4 1001001 "u1").2 1001001
      = some { id := 1001001, father := 1001,
               useable := ItemStatus.LENT,
               wis := some "Bob", doNote := some "无" } :=
  returnItem_permission_denied stC3 4 1001001 "u1"
    { id := 1001001, father := 1001, useable := ItemStatus.LENT,
      wis := some "Bob", doNote := some "无" }
    { user_id := "u1", name := "Alice", root := 0 }
    rfl rfl (by decide) (by decide) (by decide) (by decide)

/-! ## Claim C4: successful returnItem and its distinct outcomes -/

/-- C4: for every existing item whose status is neither SCRAPPED nor
APPLYING, returned by an existing member who is the recorded holder or an
admin, `returnItem` sets the status to AVAILABLE, sets the holder to the
warehouse sentinel "仓库", appends a "RETURN" log entry, resynchronizes
the item's list aggregates, and returns the confirmation message that
distinguishes an admin helping (`root == 1`) from a self-return; the five
failure conditions yield five pairwise distinct messages. -/
theorem returnItem_success_effects (s : Store) (now oid : Nat)
    (uid : String) (item : ItemInfo) (member : Member)
    (hi : getItem s oid = some item) (hm : getMember s uid = some member)
    (h1 : item.useable ≠ ItemStatus.SCRAPPED)
    (h2 : item.useable ≠ ItemStatus.APPLYING)
    (h3 : item.wis = some member.name ∨ member.root = 1) :
    getItem (return_item s now oid uid).2 oid
      = some { item with useable := ItemStatus.AVAILABLE,
                         wis := some "仓库" } ∧
    (return_item s now oid uid).2.logs
      = s.logs ++ [mkLog now uid "RETURN" oid (some "null")] ∧
    listSyncedAt (return_item s now oid uid).2 item.father ∧
    (return_item s now oid uid).1
      = return_msg (member.root == 1)
          (match getList s item.father with
           | some l => l.name
           | none => "") oid ∧
    (∀ (nm : String) (o2 : Nat),
      return_msg true nm o2 ≠ return_msg false nm o2) ∧
    (∀ (o2 : Nat) (u2 : String),
      msg_item_not_found o2 ≠ msg_member_not_found u2 ∧
      msg_item_not_found o2 ≠ msg_scrapped ∧
      msg_item_not_found o2 ≠ msg_applying ∧
      msg_item_not_found o2 ≠ msg_no_permission ∧
      msg_member_not_found u2 ≠ msg_scrapped ∧
      msg_member_not_found u2 ≠ msg_applying ∧
      msg_member_not_found u2 ≠ msg_no_permission ∧
      msg_scrapped ≠ msg_applying ∧
      msg_scrapped ≠ msg_no_permission ∧
      msg_applying ≠ msg_no_permission) := by
  have he := return_item_eq_success s now oid uid item member hi hm h1 h2 h3
  refine ⟨?_, ?_, ?_, by rw [he], return_msg_helper_ne,
    return_failure_msgs_distinct⟩
  · rw [he]
    exact getItem_set_item_state s now oid uid "RETURN"
      ItemStatus.AVAILABLE (some "仓库") (some "null") item hi
  · rw [he]
    exact logs_set_item_state s now oid uid "RETURN"
      ItemStatus.AVAILABLE (some "仓库") (some "null") item hi
  · rw [he]
    exact set_item_state_synced s now oid uid "RETURN"
      ItemStatus.AVAILABLE (some "仓库") (some "null") item hi

def stC4 : Store :=
  { categories := [{ id := 1, name := "电控", total := 1 }],
    lists := [{ id := 1001, father := 1, name := "电机",
                total := 1, free := 0, broken := 0 }],
    items := [{ id := 1001001, father := 1001,
                useable := ItemStatus.LENT,
                wis := some "Carol", doNote := some "无" }],
    members := [{ user_id := "u2", name := "Dave", root := 1 }],
    logs := [] }

/-- witness for C4: admin Dave returns an item Carol holds. -/
theorem returnItem_success_effects_witness :
    getItem (return_item stC4 6 1001001 "u2").2 1001001
      = some { id := 1001001, father := 1001,
               useable := ItemStatus.AVAILABLE,
               wis := some "仓库", doNote := some "无" } ∧
    (return_item stC4 6 1001001 "u2").2.logs
      = stC4.logs ++ [mkLog 6 "u2" "RETURN" 1001001 (some "null")] ∧
    listSyncedAt (return_item stC4 6 1001001 "u2").2 1001 ∧
    (return_item stC4 6 1001001 "u2").1
      = return_msg ((1 : Nat) == 1)
          (match getList stC4 1001 with
           | some l => l.name
           | none => "") 1001001 ∧
    (∀ (nm : String) (o2 : Nat),
      return_msg true nm o2 ≠ return_msg false nm o2) ∧
    (∀ (o2 : Nat) (u2 : String),
      msg_item_not_found o2 ≠ msg_member_not_found u2 ∧
      msg_item_not_found o2 ≠ msg_scrapped ∧
      msg_item_not_found o2 ≠ msg_applying ∧
      msg_item_not_found o2 ≠ msg_no_permission ∧
      msg_member_not_found u2 ≠ msg_scrapped ∧
      msg_member_not_found u2 ≠ msg_applying ∧
      msg_member_not_found u2 ≠ msg_no_permission ∧
      msg_scrapped ≠ msg_applying ∧
      msg_scrapped ≠ msg_no_permission ∧
      msg_applying ≠ msg_no_permission) :=
  returnItem_success_effects stC4 6 1001001 "u2"
    { id := 1001001, father := 1001, useable := ItemStatus.LENT,
      wis := some "Carol", doNote := some "无" }
    { user_id := "u2", name := "Dave", root := 1 }
    rfl rfl (by decide) (by decide) (Or.inr rfl)

/-! ## Claim C10: the second-return policy -/

/-- C10: after a successful `returnItem` the item's holder is the
warehouse sentinel "仓库" and its status AVAILABLE, so an immediate
second `returnItem` by any non-admin member whose name differs from the
sentinel fails with the not-the-holder error and changes nothing, while
a second `returnItem` by any admin member succeeds again with the helper
confirmation and leaves the item AVAILABLE with holder "仓库". -/
theorem returnItem_second_return_policy (s : Store) (now now2 oid : Nat)
    (uid : String) (item : ItemInfo) (member : Member)
    (hi : getItem s oid = some item) (hm : getMember s uid = some member)
    (h1 : item.useable ≠ ItemStatus.SCRAPPED)
    (h2 : item.useable ≠ ItemStatus.APPLYING)
    (h3 : item.wis = some member.name ∨ member.root = 1) :
    getItem (return_item s now oid uid).2 oid
      = some { item with useable := ItemStatus.AVAILABLE,
                         wis := some "仓库" } ∧
    (∀ (uid2 : String) (member2 : Member),
      getMember (return_item s now oid uid).2 uid2 = some member2 →
      member2.root ≠ 1 → member2.name ≠ "仓库" →
      return_item (return_item s now oid uid).2 now2 oid uid2
        = (msg_no_permission, (return_item s now oid uid).2)) ∧
    (∀ (uid3 : String) (member3 : Member),
      getMember (return_item s now oid uid).2 uid3 = some member3 →
      member3.root = 1 →
      (return_item (return_item s now oid uid).2 now2 oid uid3).1
        = return_msg true
            (match getList (return_item s now oid uid).2 item.father with
             | some l => l.name
             | none => "") oid ∧
      getItem (return_item (return_item s now oid uid).2 now2 oid uid3).2 oid
        = some { item with useable := ItemStatus.AVAILABLE,
                           wis := some "仓库" }) := by
  have he := return_item_eq_success s now oid uid item member hi hm h1 h2 h3
  have hpost : getItem (return_item s now oid uid).2 oid
      = some { item with useable := ItemStatus.AVAILABLE,
                         wis := some "仓库" } := by
    rw [he]
    exact getItem_set_item_state s now oid uid "RETURN"
      ItemStatus.AVAILABLE (some "仓库") (some "null") item hi
  refine ⟨hpost, ?_, ?_⟩
  · intro uid2 member2 hm2 hr2 hn2
    exact return_item_eq_no_permission (return_item s now oid uid).2 now2 oid
      uid2 { item with useable := ItemStatus.AVAILABLE, wis := some "仓库" }
      member2 hpost hm2
      (by show ItemStatus.AVAILABLE ≠ ItemStatus.SCRAPPED; decide)
      (by show ItemStatus.AVAILABLE ≠ ItemStatus.APPLYING; decide)
      (by
        intro heq
        exact hn2 (Option.some_inj.mp heq).symm)
      hr2
  · intro uid3 member3 hm3 hr3
    have he2 := return_item_eq_success (return_item s now oid uid).2 now2 oid
      uid3 { item with useable := ItemStatus.AVAILABLE, wis := some "仓库" }
      member3 hpost hm3
      (by show ItemStatus.AVAILABLE ≠ ItemStatus.SCRAPPED; decide)
      (by show ItemStatus.AVAILABLE ≠ ItemStatus.APPLYING; decide)
      (Or.inr hr3)
    constructor
    · rw [he2, show (member3.root == 1) = true from beq_iff_eq.mpr hr3]
    · rw [he2]
      exact getItem_set_item_state (return_item s now oid uid).2 now2 oid
        uid3 "RETURN" ItemStatus.AVAILABLE (some "仓库") (some "null")
        { item with useable := ItemStatus.AVAILABLE, wis := some "仓库" }
        hpost

def stC10 : Store :=
  { categories := [{ id := 1, name := "电控", total := 1 }],
    lists := [{ id := 1001, father := 1, name := "电机",
                total := 1, free := 0, broken := 0 }],
    items := [{ id := 1001001, father := 1001,
                useable := ItemStatus.LENT,
                wis := some "Alice", doNote := some "无" }],
    members := [{ user_id := "u1", name := "Alice", root := 0 },
                { user_id := "u2", name := "Bob", root := 1 }],
    logs := [] }

/-- witness for C10: Alice self-returns; her repeat fails while admin
Bob's repeat succeeds. -/
theorem returnItem_second_return_policy_witness :
    getItem (return_item stC10 1 1001001 "u1").2 1001001
      = some { id := 1001001, father := 1001,
               useable := ItemStatus.AVAILABLE,
               wis := some "仓库", doNote := some "无" } ∧
    (∀ (uid2 : String) (member2 : Member),
      getMember (return_item stC10 1 1001001 "u1").2 uid2 = some member2 →
      member2.root ≠ 1 → member2.name ≠ "仓库" →
      return_item (return_item stC10 1 1001001 "u1").2 2 1001001 uid2
        = (msg_no_permission, (return_item stC10 1 1001001 "u1").2)) ∧
    (∀ (uid3 : String) (member3 : Member),
      getMember (return_item stC10 1 1001001 "u1").2 uid3 = some member3 →
      member3.root = 1 →
      (return_item (return_item stC10 1 1001001 "u1").2 2 1001001 uid3).1
        = return_msg true
            (match getList (return_item stC10 1 1001001 "u1").2 1001 with
             | some l => l.name
             | none => "") 1001001 ∧
      getItem
          (return_item (return_item stC10 1 1001001 "u1").2 2 1001001 uid3).2
          1001001
        = some { id := 1001001, father := 1001,
                 useable := ItemStatus.AVAILABLE,
                 wis := some "仓库", doNote := some "无" }) :=
  returnItem_second_return_policy stC10 1 2 1001001 "u1"
    { id := 1001001, father := 1001, useable := ItemStatus.LENT,
      wis := some "Alice", doNote := some "无" }
    { user_id := "u1", name := "Alice", root := 0 }
    rfl rfl (by decide) (by decide) (Or.inl rfl)

/-! ## Claim C1: applyItem on a SCRAPPED item -/

def stC1 : Store :=
  { categories := [{ id := 4, name := "机械", total := 1 }],
    lists := [{ id := 4001, father := 4, name := "底盘",
                total := 1, free := 0, broken := 1 }],
    items := [{ id := 4001001, father := 4001,
                useable := ItemStatus.SCRAPPED,
                wis := some "仓库", doNote := some "无" }],
    members := [{ user_id := "u1", name := "Alice", root := 0 }],
    logs := [] }

/-- C1, refuted as stated: on a concrete store whose item 4001001 is
SCRAPPED, `applyItem` does not fail — it changes the status to APPLYING
and appends a log entry, so "fails with AlreadyScrapped, appends no log
entry, leaves the item's status unchanged" is false on the code. -/
theorem applyItem_scrapped_refuted :
    (getItem stC1 4001001).map (fun i => i.useable)
      = some ItemStatus.SCRAPPED ∧
    (getItem (apply_item stC1 9 4001001 "u1" "修车") 4001001).map
        (fun i => i.useable)
      = some ItemStatus.APPLYING ∧
    ItemStatus.APPLYING ≠ ItemStatus.SCRAPPED ∧
    (apply_item stC1 9 4001001 "u1" "修车").logs.length
      = stC1.logs.length + 1 :=
  ⟨rfl, rfl, by decide, rfl⟩

/-- C1, amended: `applyItem` performs no status check and returns
nothing; on every existing item — SCRAPPED included — it sets the status
to APPLYING, leaves the holder unchanged, appends an "APPLY" log entry,
and resynchronizes the item's list aggregates. -/
theorem applyItem_scrapped_amended (s : Store) (now oid : Nat)
    (uid dn : String) (item : ItemInfo)
    (h : getItem s oid = some item)
    (hscr : item.useable = ItemStatus.SCRAPPED) :
    getItem (apply_item s now oid uid dn) oid
      = some { item with useable := ItemStatus.APPLYING } ∧
    (getItem (apply_item s now oid uid dn) oid).map (fun i => i.wis)
      = some item.wis ∧
    (apply_item s now oid uid dn).logs
      = s.logs ++ [mkLog now uid "APPLY" oid (some dn)] ∧
    listSyncedAt (apply_item s now oid uid dn) item.father := by
  have h1 := getItem_set_item_state s now oid uid "APPLY"
    ItemStatus.APPLYING none (some dn) item h
  refine ⟨h1, ?_, ?_, ?_⟩
  · rw [show getItem (apply_item s now oid uid dn) oid
        = some (applyState ItemStatus.APPLYING none item) from h1]
    rfl
  · exact logs_set_item_state s now oid uid "APPLY"
      ItemStatus.APPLYING none (some dn) item h
  · exact set_item_state_synced s now oid uid "APPLY"
      ItemStatus.APPLYING none (some dn) item h

/-- witness for the amended C1 at the concrete store of the
counterexample. -/
theorem applyItem_scrapped_amended_witness :
    getItem (apply_item stC1 9 4001001 "u1" "修车") 4001001
      = some { id := 4001001, father := 4001,
               useable := ItemStatus.APPLYING,
               wis := some "仓库", doNote := some "无" } ∧
    (getItem (apply_item stC1 9 4001001 "u1" "修车") 4001001).map
        (fun i => i.wis)
      = some (some "仓库") ∧
    (apply_item stC1 9 4001001 "u1" "修车").logs
      = stC1.logs ++ [mkLog 9 "u1" "APPLY" 4001001 (some "修车")] ∧
    listSyncedAt (apply_item stC1 9 4001001 "u1" "修车") 4001 :=
  applyItem_scrapped_amended stC1 9 4001001 "u1" "修车"
    { id := 4001001, father := 4001, useable := ItemStatus.SCRAPPED,
      wis := some "仓库", doNote := some "无" }
    rfl rfl

end RMMP
